import Mathlib

/-!
Verification development for the CAN socket-multiplexing and callback-dispatch
engine of libdigiapix (`src/can.c`).

The C source is shallowly embedded: machine integers become `Nat`/`Int`,
socket descriptors become `Nat`, callback handler pointers become
`Option Nat` (with `none` for `NULL`), and each C function relevant to the
examined properties becomes an executable Lean function over explicit inputs
that stand for the results of the system calls it performs.
-/

set_option autoImplicit false

/-- Modelled from the spec: the `CAN_ERROR_*` codes are declared in `can.h`,
which is not among the sources; per the spec they are "small positive integer
codes (zero reserved for success)" bounded by `CAN_ERROR_MAX`.  They are
modelled as distinct small naturals, numbered in the order of the string
table in `can.c`, followed by the codes that appear in `can.c` but have no
string-table entry. -/
def CAN_ERROR_NONE : Nat := 0
def CAN_ERROR_NULL_INTERFACE : Nat := 1
def CAN_ERROR_IFR_IDX : Nat := 2
def CAN_ERROR_NO_MEM : Nat := 3
def CAN_ERROR_NL_GET_STATE : Nat := 4
def CAN_ERROR_NL_START : Nat := 5
def CAN_ERROR_NL_STOP : Nat := 6
def CAN_ERROR_NL_STATE_MISSMATCH : Nat := 7
def CAN_ERROR_NL_BITRATE : Nat := 8
def CAN_ERROR_NL_RESTART : Nat := 9
def CAN_ERROR_NL_SET_RESTART_MS : Nat := 10
def CAN_ERROR_NL_GET_RESTART_MS : Nat := 11
def CAN_ERROR_NL_RSTMS_MISSMATCH : Nat := 12
def CAN_ERROR_NL_SET_CTRL_MODE : Nat := 13
def CAN_ERROR_NL_GET_CTRL_MODE : Nat := 14
def CAN_ERROR_NL_CTRL_MISSMATCH : Nat := 15
def CAN_ERROR_NL_GET_DEV_STATS : Nat := 16
def CAN_ERROR_NL_SET_BIT_TIMING : Nat := 17
def CAN_ERROR_NL_GET_BIT_TIMING : Nat := 18
def CAN_ERROR_NL_BT_MISSMATCH : Nat := 19
def CAN_ERROR_NL_GET_BIT_ERR_CNT : Nat := 20
def CAN_ERROR_NL_BR_MISSMATCH : Nat := 21
def CAN_ERROR_TX_SKT_CREATE : Nat := 22
def CAN_ERROR_TX_SKT_WR : Nat := 23
def CAN_ERROR_TX_SKT_BIND : Nat := 24
def CAN_ERROR_TX_RETRY_LATER : Nat := 25
def CAN_ERROR_INCOMP_FRAME : Nat := 26
def CAN_ERROR_SETSKTOPT_RAW_FLT : Nat := 27
def CAN_ERROR_SETSKTOPT_ERR_FLT : Nat := 28
def CAN_ERROR_SETSKTOPT_CANFD : Nat := 29
def CAN_ERROR_SETSKTOPT_TIMESTAMP : Nat := 30
def CAN_ERROR_SETSKTOPT_SNDBUF : Nat := 31
def CAN_ERROR_GETSKTOPT_SNDBUF : Nat := 32
def CAN_ERROR_SETSKTOPT_RCVBUF : Nat := 33
def CAN_ERROR_GETSKTOPT_RCVBUF : Nat := 34
def CAN_ERROR_DROPPED_FRAMES : Nat := 35
def CAN_ERROR_NETWORK_DOWN : Nat := 36
def CAN_ERROR_SIOCGIFMTU : Nat := 37
def CAN_ERROR_NOT_CANFD : Nat := 38
def CAN_ERROR_REG_ERR_HDLR : Nat := 39
def CAN_ERROR_THREAD_ALLOC : Nat := 40
def CAN_ERROR_THREAD_MUTEX_INIT : Nat := 41
def CAN_ERROR_THREAD_CREATE : Nat := 42
def CAN_ERROR_THREAD_MUTEX_LOCK : Nat := 43
def CAN_ERROR_ERR_CB_ALR_REG : Nat := 44
def CAN_ERROR_ERR_CB_NOT_FOUND : Nat := 45
def CAN_ERROR_RX_CB_ALR_REG : Nat := 46
def CAN_ERROR_RX_CB_NOT_FOUND : Nat := 47
def CAN_ERROR_RX_SKT_CREATE : Nat := 48
def CAN_ERROR_RX_SKT_BIND : Nat := 49
def CAN_ERROR_MAX : Nat := 50

/-- `EXIT_SUCCESS` from `stdlib.h`. -/
def EXIT_SUCCESS : Int := 0

/- errno values from the Linux headers (external to the repository). -/
def EPERM : Nat := 1
def EINTR : Nat := 4
def EBADF : Nat := 9
def EAGAIN : Nat := 11
def ENOBUFS : Nat := 105
def ENETDOWN : Nat := 100

/- Frame sizes from `linux/can.h`: `sizeof(struct can_frame)` and
`sizeof(struct canfd_frame)`. -/
def CAN_MTU : Nat := 16
def CANFD_MTU : Nat := 72

/-! ## Frame-Length Codec (`dlc2len`, `len2dlc`, `can_dlc2len`, `CAN_LEN2DLC`) -/

/-- The `dlc2len` table of `can.c`: CAN DLC to real data length. -/
def dlc2len : List Nat := [0, 1, 2, 3, 4, 5, 6, 7, 8, 12, 16, 20, 24, 32, 48, 64]

/-- `can_dlc2len` of `can.c`: get data length from `can_dlc & 0x0F`. -/
def can_dlc2len (can_dlc : Nat) : Nat := dlc2len.getD (can_dlc % 16) 0

/-- The `len2dlc` table of `can.c`, indexed by a length 0–64. -/
def len2dlc : List Nat :=
  [0, 1, 2, 3, 4, 5, 6, 7, 8,
   9, 9, 9, 9,
   10, 10, 10, 10,
   11, 11, 11, 11,
   12, 12, 12, 12,
   13, 13, 13, 13, 13, 13, 13, 13,
   14, 14, 14, 14, 14, 14, 14, 14,
   14, 14, 14, 14, 14, 14, 14, 14,
   15, 15, 15, 15, 15, 15, 15, 15,
   15, 15, 15, 15, 15, 15, 15, 15]

/-- The `CAN_LEN2DLC` macro of `can.c`:
`len > 64 ? 0xF : len2dlc[len]`. -/
def CAN_LEN2DLC (len : Nat) : Nat := if len > 64 then 0xF else len2dlc.getD len 0

/-- The supported extended (CAN FD) payload sizes, as named by the spec. -/
def canfdSupportedSizes : List Nat := [12, 16, 20, 24, 32, 48, 64]

/-! ## Callback Registry and Dispatch Engine
(`can_err_cb_t`, `can_cb_t`, `ldx_can_event_t`, `ldx_can_call_err_cb`,
`ldx_can_dispatch_evt`) -/

/-- An error-callback entry (`can_err_cb_t`): a handler reference, `none`
standing for a `NULL` function pointer. -/
structure can_err_cb_t where
  handler : Option Nat
deriving DecidableEq

/-- A receive-callback entry (`can_cb_t`): the owning receive socket and the
handler reference. -/
structure can_cb_t where
  rx_skt : Nat
  handler : Option Nat
deriving DecidableEq

/-- A decoded event (`ldx_can_event_t`), with the frame collapsed to its
identifier and the timestamp left opaque. -/
structure ldx_can_event_t where
  can_id : Nat
  tstamp : Nat
  dropped_frames : Nat
  rx_skt : Nat
  is_rx : Bool
  is_error : Bool
deriving DecidableEq

/-- One observable callback invocation made by the dispatch engine.  An `err`
call records the handler and the error argument; an `rx` call records the
handler, the owning socket of the invoked entry and the frame identifier. -/
inductive CbCall where
  | err (handler : Nat) (error : Nat)
  | rx (handler : Nat) (skt : Nat) (can_id : Nat)
deriving DecidableEq

/-- The body of the error-callback iteration: a non-`NULL` handler is invoked
with the given error argument. -/
def errInvoke (error : Nat) (cb : can_err_cb_t) : Option CbCall :=
  cb.handler.map fun h => CbCall.err h error

/-- `ldx_can_call_err_cb` of `can.c`: walk the error-callback list invoking
every non-`NULL` handler with `error`.  The result is the invocation trace. -/
def ldx_can_call_err_cb (errs : List can_err_cb_t) (error : Nat) : List CbCall :=
  errs.filterMap (errInvoke error)

/-- The body of the receive-callback iteration in `ldx_can_dispatch_evt`:
a non-`NULL` handler is invoked iff its entry's socket equals the event's
origin socket. -/
def rxInvoke (origin can_id : Nat) (cb : can_cb_t) : Option CbCall :=
  match cb.handler with
  | some h => if cb.rx_skt = origin then some (CbCall.rx h cb.rx_skt can_id) else none
  | none => none

/-- `ldx_can_dispatch_evt` of `can.c`, as the trace of callback invocations it
performs.  The error branch is taken first; only otherwise does the receive
branch run, with its dropped-frames notification, its (dead) repeated
error-flag check, and the per-socket receive-callback iteration. -/
def ldx_can_dispatch_evt (errs : List can_err_cb_t) (rxs : List can_cb_t)
    (evt : ldx_can_event_t) : List CbCall :=
  if evt.is_error then
    errs.filterMap (errInvoke evt.can_id)
  else if evt.is_rx then
    (if evt.dropped_frames ≠ 0 then ldx_can_call_err_cb errs CAN_ERROR_DROPPED_FRAMES else [])
    ++ (if evt.is_error then errs.filterMap (errInvoke evt.can_id) else [])
    ++ rxs.filterMap (rxInvoke evt.rx_skt evt.can_id)
  else []

/-! ## Transmit Path (`ldx_can_tx_frame`) -/

/-- The length normalization applied by `ldx_can_tx_frame` to an
extended-length frame before writing:
`frame->len = can_dlc2len(CAN_LEN2DLC(frame->len))`. -/
def ldx_can_tx_frame_len (canfd_enabled : Bool) (len : Nat) : Nat :=
  if canfd_enabled then can_dlc2len (CAN_LEN2DLC len) else len

/-- `ldx_can_tx_frame` of `can.c` as a function of the null-ness of the
interface pointer, the FD-enable flag, the `write` result and `errno`.
Note the control flow: a result of exactly -1 with a non-transient errno
skips every other branch and falls through to the final
`return EXIT_SUCCESS`. -/
def ldx_can_tx_frame (cif_null : Bool) (canfd_enabled : Bool)
    (writeRet : Int) (errno : Nat) : Int :=
  if cif_null then -(CAN_ERROR_NULL_INTERFACE : Int)
  else
    let mtu : Int := if canfd_enabled then (CANFD_MTU : Int) else (CAN_MTU : Int)
    if writeRet = -1 then
      if errno = ENOBUFS ∨ errno = EAGAIN then -(CAN_ERROR_TX_RETRY_LATER : Int)
      else EXIT_SUCCESS
    else if writeRet < 0 then -(CAN_ERROR_TX_SKT_WR : Int)
    else if writeRet < mtu then -(CAN_ERROR_INCOMP_FRAME : Int)
    else EXIT_SUCCESS

/-! ## Poll/Run Loop (`ldx_can_poll_one`, `ldx_can_poll`) -/

/-- `ldx_can_poll_one` of `can.c`, over the `select` result, `errno`, and the
result that `ldx_can_poll_one_read_i` produces when a descriptor is ready.
On a `select` failure with `errno != EINTR` the code executes
`return errno;`. -/
def ldx_can_poll_one (selectRet : Int) (errno : Nat) (readRet : Int) : Int :=
  if selectRet < 0 ∧ errno ≠ EINTR then (errno : Int)
  else if selectRet > 0 then
    if readRet < 1 then readRet else selectRet
  else selectRet

/-- `ldx_can_poll` of `can.c`: on a positive `select` result every ready
socket is drained (each drain result overwrites `ret` and is logged when
negative), and then `ret` is unconditionally set to 0 before returning. -/
def ldx_can_poll (selectRet : Int) (errno : Nat) (drainResults : List Int) : Int :=
  if selectRet < 0 ∧ errno ≠ EINTR then selectRet
  else if selectRet > 0 then
    let _ret := drainResults.foldl (fun _ d => d) selectRet
    0
  else selectRet

/-! ## Socket Lifecycle: wait-set and maximum descriptor
(`ldx_can_init` lines 670–673, `ldx_can_init_rx_socket` lines 1167–1170,
`ldx_can_close_rx_socket_impl` line 1217) -/

/-- `FD_SET` over a wait-set modelled as a duplicate-free list. -/
def FD_SET (fd : Nat) (s : List Nat) : List Nat := if fd ∈ s then s else fd :: s

/-- `FD_CLR`. -/
def FD_CLR (fd : Nat) (s : List Nat) : List Nat := s.filter fun x => x != fd

/-- The wait-set and maximum-descriptor fields of `can_priv_t`. -/
structure can_fds_state where
  can_fds : List Nat
  maxfd : Nat
deriving DecidableEq

/-- The wait-set initialization at the end of `ldx_can_init`:
`FD_ZERO; FD_SET(tx_skt); maxfd = tx_skt`. -/
def ldx_can_init_fds (tx_skt : Nat) : can_fds_state :=
  ⟨FD_SET tx_skt [], tx_skt⟩

/-- The wait-set update on the success path of `ldx_can_init_rx_socket`:
`FD_SET(rx_skt); if (rx_skt > maxfd) maxfd = rx_skt;`. -/
def ldx_can_init_rx_socket_fds (s : can_fds_state) (rx_skt : Nat) : can_fds_state :=
  ⟨FD_SET rx_skt s.can_fds, if rx_skt > s.maxfd then rx_skt else s.maxfd⟩

/-- The wait-set update in `ldx_can_close_rx_socket_impl` (also reached from
`ldx_can_unregister_rx_handler`): `FD_CLR(rx_skt)` only — `maxfd` is not
recomputed. -/
def ldx_can_close_rx_socket_fds (s : can_fds_state) (rx_skt : Nat) : can_fds_state :=
  ⟨FD_CLR rx_skt s.can_fds, s.maxfd⟩

/-- The largest descriptor in a wait-set (0 when empty). -/
def fds_max (l : List Nat) : Nat := l.foldr max 0

/-- Invariant (d) of the spec: the maximum-descriptor value equals the largest
descriptor currently in the wait-set. -/
def maxfd_exact (s : can_fds_state) : Prop := s.maxfd = fds_max s.can_fds

/-- The weaker property the code maintains across closes: `maxfd` bounds
every descriptor in the wait-set. -/
def maxfd_ubound (s : can_fds_state) : Prop := ∀ fd ∈ s.can_fds, fd ≤ s.maxfd

/-! ## Interface init (`ldx_can_init`), transmit-socket setup -/

/-- Inputs to `ldx_can_init` standing for the results of the external calls it
performs, in program order.  `cfg_ret` is the first failing result of the
netlink configuration and `ldx_can_start` phase (0 when that phase succeeds),
which runs before the transmit socket exists; `pdata->can_thr` is `NULL` on
entry, as `ldx_can_request_by_name` leaves it. -/
structure can_init_env where
  cfg_ret : Int
  skt_ret : Int
  ifr_ifindex : Nat
  fcntl_ret : Int
  ioctl_mtu_ret : Int
  ifr_mtu : Nat
  canfd_sockopt_ret : Int
  rawflt_sockopt_ret : Int
  sndbufforce_ret : Int
  sndbuf_ret : Int
  getsndbuf_ret : Int
  errflt_sockopt_ret : Int
  bind_ret : Int
  reg_err_ret : Int
  mutex_init_ret : Int
  thr_create_ret : Int
  thr_alloc_ok : Bool
deriving DecidableEq

/-- Outcome of `ldx_can_init`: the returned code and whether the transmit
socket is left open on return. -/
structure can_init_outcome where
  ret : Int
  tx_skt_open : Bool
deriving DecidableEq

/-- `ldx_can_init` of `can.c` over the configuration fields it consults
(`canfd_enabled`, `tx_buf_len`, `error_mask`, `polled_mode`) and the
environment.  Every error path after socket creation goes through
`err_skt_close`, which closes the transmit socket.  Note the MTU branch:
`ret = CAN_ERROR_NOT_CANFD;` with no negation, unlike every other path. -/
def ldx_can_init (canfd_enabled : Bool) (tx_buf_len : Nat) (error_mask : Nat)
    (polled_mode : Bool) (env : can_init_env) : can_init_outcome :=
  if env.cfg_ret ≠ 0 then ⟨env.cfg_ret, false⟩
  else if env.skt_ret < 0 then ⟨-(CAN_ERROR_TX_SKT_CREATE : Int), false⟩
  else if env.ifr_ifindex = 0 then ⟨-(CAN_ERROR_IFR_IDX : Int), false⟩
  else if env.fcntl_ret ≠ 0 then ⟨env.fcntl_ret, false⟩
  else if canfd_enabled ∧ env.ioctl_mtu_ret < 0 then
    ⟨-(CAN_ERROR_SIOCGIFMTU : Int), false⟩
  else if canfd_enabled ∧ env.ifr_mtu ≠ CANFD_MTU then
    ⟨(CAN_ERROR_NOT_CANFD : Int), false⟩
  else if canfd_enabled ∧ env.canfd_sockopt_ret < 0 then
    ⟨-(CAN_ERROR_SETSKTOPT_CANFD : Int), false⟩
  else if env.rawflt_sockopt_ret < 0 then
    ⟨-(CAN_ERROR_SETSKTOPT_RAW_FLT : Int), false⟩
  else if tx_buf_len ≠ 0 ∧ env.sndbufforce_ret < 0 ∧ env.sndbuf_ret < 0 then
    ⟨-(CAN_ERROR_SETSKTOPT_SNDBUF : Int), false⟩
  else if tx_buf_len ≠ 0 ∧ env.getsndbuf_ret < 0 then
    ⟨-(CAN_ERROR_GETSKTOPT_SNDBUF : Int), false⟩
  else if error_mask ≠ 0 ∧ env.errflt_sockopt_ret < 0 then
    ⟨-(CAN_ERROR_SETSKTOPT_ERR_FLT : Int), false⟩
  else if env.bind_ret < 0 then ⟨-(CAN_ERROR_TX_SKT_BIND : Int), false⟩
  else if env.reg_err_ret < 0 then ⟨-(CAN_ERROR_REG_ERR_HDLR : Int), false⟩
  else if ¬polled_mode then
    if ¬env.thr_alloc_ok then ⟨-(CAN_ERROR_THREAD_ALLOC : Int), false⟩
    else if env.mutex_init_ret ≠ 0 then ⟨-(CAN_ERROR_THREAD_MUTEX_INIT : Int), false⟩
    else if env.thr_create_ret ≠ 0 then ⟨-(CAN_ERROR_THREAD_CREATE : Int), false⟩
    else ⟨(CAN_ERROR_NONE : Int), true⟩
  else ⟨(CAN_ERROR_NONE : Int), true⟩

/-- A `can_init_env` where everything up to the CAN FD MTU check succeeds but
the link MTU is the standard `CAN_MTU` rather than `CANFD_MTU`.  Fields in
order: cfg_ret, skt_ret, ifr_ifindex, fcntl_ret, ioctl_mtu_ret, ifr_mtu,
canfd_sockopt_ret, rawflt_sockopt_ret, sndbufforce_ret, sndbuf_ret,
getsndbuf_ret, errflt_sockopt_ret, bind_ret, reg_err_ret, mutex_init_ret,
thr_create_ret, thr_alloc_ok. -/
def can_init_env_no_fd_mtu : can_init_env :=
  ⟨0, 3, 2, 0, 0, CAN_MTU, 0, 0, 0, 0, 0, 0, 0, 0, 0, 0, true⟩

/-! ## Error strings (`__can_error_str`, `ldx_can_strerror`) -/

/-- The designated initializers of `__can_error_str` in `can.c`, as a lookup
from index to entry; indices without an initializer are `none` (NULL, from
static zero-initialization). -/
def can_error_str_entry (i : Nat) : Option String :=
  if i = CAN_ERROR_NONE then some "Success"
  else if i = CAN_ERROR_NULL_INTERFACE then some "CAN interface is NULL"
  else if i = CAN_ERROR_IFR_IDX then some "Interface index error"
  else if i = CAN_ERROR_NO_MEM then some "No memory"
  else if i = CAN_ERROR_NL_GET_STATE then some "Get netlink interface state"
  else if i = CAN_ERROR_NL_START then some "Start interface"
  else if i = CAN_ERROR_NL_STOP then some "Stop interface"
  else if i = CAN_ERROR_NL_STATE_MISSMATCH then
    some "Netlink state set does not match value read"
  else if i = CAN_ERROR_NL_BITRATE then some "Set interface bitrate"
  else if i = CAN_ERROR_NL_RESTART then some "Restart interface error"
  else if i = CAN_ERROR_NL_SET_RESTART_MS then some "Set restart ms error"
  else if i = CAN_ERROR_NL_GET_RESTART_MS then some "Get restart ms error"
  else if i = CAN_ERROR_NL_RSTMS_MISSMATCH then
    some "Restart ms value set does not match value read"
  else if i = CAN_ERROR_NL_SET_CTRL_MODE then some "Set ctrl mode error"
  else if i = CAN_ERROR_NL_GET_CTRL_MODE then some "Get ctrl mode error"
  else if i = CAN_ERROR_NL_CTRL_MISSMATCH then
    some "Get ctrl mode value set does not match value read"
  else if i = CAN_ERROR_NL_GET_DEV_STATS then some "Get device statistics error"
  else if i = CAN_ERROR_NL_SET_BIT_TIMING then some "Set bit timing error"
  else if i = CAN_ERROR_NL_GET_BIT_TIMING then some "Get bit timing error"
  else if i = CAN_ERROR_NL_BT_MISSMATCH then
    some "Bit timing value set does not match value read"
  else if i = CAN_ERROR_NL_GET_BIT_ERR_CNT then some "Get bit error counter error"
  else if i = CAN_ERROR_NL_BR_MISSMATCH then
    some "Bitrate value set does not match value read"
  else if i = CAN_ERROR_TX_SKT_CREATE then some "Socket create error"
  else if i = CAN_ERROR_TX_SKT_WR then some "Socket write error"
  else if i = CAN_ERROR_TX_SKT_BIND then some "Socket bind error"
  else if i = CAN_ERROR_TX_RETRY_LATER then some "TX retry later"
  else if i = CAN_ERROR_INCOMP_FRAME then some "Incomplete TX frame"
  else if i = CAN_ERROR_SETSKTOPT_RAW_FLT then
    some "setsocketopt CAN_RAW_FILTER error"
  else if i = CAN_ERROR_SETSKTOPT_ERR_FLT then
    some "setsocketopt CAN_RAW_ERR_FILTER error"
  else if i = CAN_ERROR_SETSKTOPT_CANFD then
    some "setsocketopt CAN_RAW_FD_FRAMES error"
  else if i = CAN_ERROR_SETSKTOPT_TIMESTAMP then
    some "setsocketopt SO_TIMESTAMP error"
  else if i = CAN_ERROR_SETSKTOPT_SNDBUF then some "setsocketopt SO_SNDBUF error"
  else if i = CAN_ERROR_GETSKTOPT_SNDBUF then some "getsocketopt SO_SNDBUF error"
  else if i = CAN_ERROR_SETSKTOPT_RCVBUF then some "setsocketopt SO_RCVBUF error"
  else if i = CAN_ERROR_GETSKTOPT_RCVBUF then some "getsocketopt SO_RCVBUF error"
  else if i = CAN_ERROR_DROPPED_FRAMES then some "Dropped frames"
  else none

/-- `__can_error_str` of `can.c`: an array of `CAN_ERROR_MAX + 1` entries. -/
def __can_error_str : List (Option String) :=
  (List.range (CAN_ERROR_MAX + 1)).map can_error_str_entry

/-- `ldx_can_strerror` of `can.c`: the table is consulted only for
`0 < error < CAN_ERROR_MAX`; otherwise the result stays NULL. -/
def ldx_can_strerror (error : Int) : Option String :=
  if 0 < error ∧ error < (CAN_ERROR_MAX : Int) then
    __can_error_str.getD error.toNat none
  else none

/-! ## Theorems -/

/-- C5: for every byte length `len` with `0 <= len <= 8`, expanding the
normalized length code yields `len` back exactly:
`can_dlc2len (CAN_LEN2DLC len) = len`. -/
theorem can_len_roundtrip_short (len : Nat) (h : len ≤ 8) :
    can_dlc2len (CAN_LEN2DLC len) = len := by
  revert h
  revert len
  decide

/-- Witness for C5 at the concrete length 3. -/
theorem can_len_roundtrip_short_witness :
    (3 : Nat) ≤ 8 ∧ can_dlc2len (CAN_LEN2DLC 3) = 3 :=
  ⟨by decide, can_len_roundtrip_short 3 (by decide)⟩

/-- C6: for every byte length `len` with `9 <= len <= 64`,
`can_dlc2len (CAN_LEN2DLC len)` is at least `len` and is the smallest element
of {12, 16, 20, 24, 32, 48, 64} that is greater than or equal to `len`. -/
theorem can_len_roundtrip_fd (len : Nat) (h64 : len ≤ 64) (h9 : 9 ≤ len) :
    len ≤ can_dlc2len (CAN_LEN2DLC len) ∧
    can_dlc2len (CAN_LEN2DLC len) ∈ canfdSupportedSizes ∧
    ∀ s ∈ canfdSupportedSizes, len ≤ s → can_dlc2len (CAN_LEN2DLC len) ≤ s := by
  revert h9
  revert h64
  revert len
  decide

/-- Witness for C6 at the concrete length 13. -/
theorem can_len_roundtrip_fd_witness :
    (13 : Nat) ≤ 64 ∧ 9 ≤ (13 : Nat) ∧
      (13 ≤ can_dlc2len (CAN_LEN2DLC 13) ∧
       can_dlc2len (CAN_LEN2DLC 13) ∈ canfdSupportedSizes ∧
       ∀ s ∈ canfdSupportedSizes, 13 ≤ s → can_dlc2len (CAN_LEN2DLC 13) ≤ s) :=
  ⟨by decide, by decide, can_len_roundtrip_fd 13 (by decide) (by decide)⟩

theorem errInvoke_shape {e : Nat} {cb : can_err_cb_t} {c : CbCall}
    (h : errInvoke e cb = some c) :
    ∃ hd, cb.handler = some hd ∧ c = CbCall.err hd e := by
  obtain ⟨handler⟩ := cb
  cases handler with
  | none => simp [errInvoke] at h
  | some hd =>
    simp [errInvoke] at h
    exact ⟨hd, rfl, h.symm⟩

theorem rxInvoke_shape {o i : Nat} {cb : can_cb_t} {c : CbCall}
    (h : rxInvoke o i cb = some c) :
    ∃ hd, cb.handler = some hd ∧ cb.rx_skt = o ∧ c = CbCall.rx hd o i := by
  obtain ⟨skt, handler⟩ := cb
  cases handler with
  | none => simp [rxInvoke] at h
  | some hd =>
    simp only [rxInvoke] at h
    by_cases hskt : skt = o
    · simp [hskt] at h
      exact ⟨hd, rfl, hskt, by simp [hskt, ← h]⟩
    · simp [hskt] at h

theorem count_err_callErr (errs : List can_err_cb_t) (e hd : Nat) :
    (ldx_can_call_err_cb errs e).count (CbCall.err hd e)
      = errs.count ⟨some hd⟩ := by
  induction errs with
  | nil => rfl
  | cons cb tl ih =>
    obtain ⟨handler⟩ := cb
    cases handler with
    | none =>
      simpa [ldx_can_call_err_cb, List.filterMap_cons, errInvoke, List.count_cons] using ih
    | some g =>
      have hfm : ldx_can_call_err_cb (can_err_cb_t.mk (some g) :: tl) e
          = CbCall.err g e :: ldx_can_call_err_cb tl e := by
        simp [ldx_can_call_err_cb, List.filterMap_cons, errInvoke]
      rw [hfm]
      by_cases hg : hd = g
      · subst hg
        simp [List.count_cons, ih]
      · simp [List.count_cons, hg, ih]

theorem rx_not_mem_callErr (errs : List can_err_cb_t) (e hd s i : Nat) :
    CbCall.rx hd s i ∉ ldx_can_call_err_cb errs e := by
  intro hmem
  obtain ⟨cb, _, hinv⟩ := List.mem_filterMap.mp hmem
  obtain ⟨g, _, hc⟩ := errInvoke_shape hinv
  simp at hc

theorem count_rx_callErr (errs : List can_err_cb_t) (e hd s i : Nat) :
    (ldx_can_call_err_cb errs e).count (CbCall.rx hd s i) = 0 :=
  List.count_eq_zero.mpr (rx_not_mem_callErr errs e hd s i)

theorem err_not_mem_rxPart (rxs : List can_cb_t) (o i hd e : Nat) :
    CbCall.err hd e ∉ rxs.filterMap (rxInvoke o i) := by
  intro hmem
  obtain ⟨cb, _, hinv⟩ := List.mem_filterMap.mp hmem
  obtain ⟨g, _, _, hc⟩ := rxInvoke_shape hinv
  simp at hc

theorem count_err_rxPart (rxs : List can_cb_t) (o i hd e : Nat) :
    (rxs.filterMap (rxInvoke o i)).count (CbCall.err hd e) = 0 :=
  List.count_eq_zero.mpr (err_not_mem_rxPart rxs o i hd e)

theorem count_rx_rxPart (rxs : List can_cb_t) (o i hd : Nat) :
    (rxs.filterMap (rxInvoke o i)).count (CbCall.rx hd o i)
      = (rxs.filter fun cb => cb.handler == some hd && cb.rx_skt == o).length := by
  induction rxs with
  | nil => rfl
  | cons cb tl ih =>
    obtain ⟨skt, handler⟩ := cb
    cases handler with
    | none =>
      simpa [List.filterMap_cons, rxInvoke, List.filter_cons] using ih
    | some g =>
      by_cases hskt : skt = o
      · by_cases hg : g = hd <;>
          simp [List.filterMap_cons, rxInvoke, List.filter_cons, hskt, hg,
            List.count_cons, ih]
      · simp [List.filterMap_cons, rxInvoke, List.filter_cons, hskt, ih]

theorem dispatch_rx_eq (errs : List can_err_cb_t) (rxs : List can_cb_t)
    (evt : ldx_can_event_t) (herr : evt.is_error = false) (hrx : evt.is_rx = true) :
    ldx_can_dispatch_evt errs rxs evt
      = (if evt.dropped_frames ≠ 0
          then ldx_can_call_err_cb errs CAN_ERROR_DROPPED_FRAMES else [])
        ++ rxs.filterMap (rxInvoke evt.rx_skt evt.can_id) := by
  unfold ldx_can_dispatch_evt
  simp [herr, hrx]

/-- C1 counterexample: dispatching an event flagged both as a receive event and
as an error event, with a nonzero dropped-frame counter, issues no
`CAN_ERROR_DROPPED_FRAMES` invocation at all to the one registered error
callback (handler 1): the top-level error branch wins and the dropped-frames
notification is skipped, refuting "regardless of whether the event is also
flagged as an error event". -/
theorem dispatch_dropped_frames_error_event_cex :
    (⟨2, 0, 7, 4, true, true⟩ : ldx_can_event_t).dropped_frames ≠ 0 ∧
    (ldx_can_dispatch_evt [⟨some 1⟩] [] ⟨2, 0, 7, 4, true, true⟩).count
        (CbCall.err 1 CAN_ERROR_DROPPED_FRAMES) = 0 := by
  decide

/-- C1 (amended): for every dispatched event flagged as a receive event and
not as an error event whose dropped-frame counter is nonzero,
`ldx_can_dispatch_evt` invokes each registered error callback exactly once
with the dedicated `CAN_ERROR_DROPPED_FRAMES` condition: for every handler
`hd`, the number of `CAN_ERROR_DROPPED_FRAMES` invocations of `hd` equals the
number of error-callback entries holding `hd`. -/
theorem dispatch_dropped_frames_rx_event (errs : List can_err_cb_t)
    (rxs : List can_cb_t) (evt : ldx_can_event_t) (herr : evt.is_error = false)
    (hrx : evt.is_rx = true) (hdrop : evt.dropped_frames ≠ 0) (hd : Nat) :
    (ldx_can_dispatch_evt errs rxs evt).count (CbCall.err hd CAN_ERROR_DROPPED_FRAMES)
      = errs.count ⟨some hd⟩ := by
  rw [dispatch_rx_eq errs rxs evt herr hrx, if_pos hdrop, List.count_append,
    count_err_callErr, count_err_rxPart, Nat.add_zero]

/-- Witness for the amended C1 at a concrete receive event with two error
callbacks and one matching receive callback. -/
theorem dispatch_dropped_frames_rx_event_witness :
    (⟨5, 0, 3, 2, true, false⟩ : ldx_can_event_t).is_error = false ∧
    (⟨5, 0, 3, 2, true, false⟩ : ldx_can_event_t).is_rx = true ∧
    (⟨5, 0, 3, 2, true, false⟩ : ldx_can_event_t).dropped_frames ≠ 0 ∧
    (ldx_can_dispatch_evt [⟨some 1⟩, ⟨none⟩] [⟨2, some 9⟩]
        ⟨5, 0, 3, 2, true, false⟩).count (CbCall.err 1 CAN_ERROR_DROPPED_FRAMES)
      = List.count ⟨some 1⟩ [can_err_cb_t.mk (some 1), ⟨none⟩] :=
  ⟨rfl, rfl, by decide,
    dispatch_dropped_frames_rx_event [⟨some 1⟩, ⟨none⟩] [⟨2, some 9⟩]
      ⟨5, 0, 3, 2, true, false⟩ rfl rfl (by decide) 1⟩

/-- C4: for every dispatched event flagged as a receive event and not as an
error event with origin socket `evt.rx_skt`, `ldx_can_dispatch_evt` invokes
exactly those receive-callback entries whose owning socket equals the origin
socket — every receive invocation in the trace carries the origin socket, and
for each handler the number of its invocations equals the number of
receive-callback entries holding that handler against the origin socket. -/
theorem dispatch_rx_event_socket_match (errs : List can_err_cb_t)
    (rxs : List can_cb_t) (evt : ldx_can_event_t) (herr : evt.is_error = false)
    (hrx : evt.is_rx = true) :
    (∀ hd s i, CbCall.rx hd s i ∈ ldx_can_dispatch_evt errs rxs evt →
      s = evt.rx_skt) ∧
    (∀ hd, (ldx_can_dispatch_evt errs rxs evt).count
        (CbCall.rx hd evt.rx_skt evt.can_id)
      = (rxs.filter fun cb =>
          cb.handler == some hd && cb.rx_skt == evt.rx_skt).length) := by
  constructor
  · intro hd s i hmem
    rw [dispatch_rx_eq errs rxs evt herr hrx] at hmem
    rcases List.mem_append.mp hmem with h1 | h2
    · by_cases hdf : evt.dropped_frames = 0
      · simp [hdf] at h1
      · rw [if_pos hdf] at h1
        exact absurd h1 (rx_not_mem_callErr _ _ _ _ _)
    · obtain ⟨cb, _, hinv⟩ := List.mem_filterMap.mp h2
      obtain ⟨g, _, _, hc⟩ := rxInvoke_shape hinv
      simp at hc
      exact hc.2.1
  · intro hd
    rw [dispatch_rx_eq errs rxs evt herr hrx, List.count_append]
    have h1 : (if evt.dropped_frames ≠ 0
        then ldx_can_call_err_cb errs CAN_ERROR_DROPPED_FRAMES else []).count
          (CbCall.rx hd evt.rx_skt evt.can_id) = 0 := by
      by_cases hdf : evt.dropped_frames = 0 <;> simp [hdf, count_rx_callErr]
    rw [h1, count_rx_rxPart, Nat.zero_add]

/-- Witness for C4 at a concrete receive event on socket 2 with entries on
sockets 2 and 3. -/
theorem dispatch_rx_event_socket_match_witness :
    (⟨5, 0, 0, 2, true, false⟩ : ldx_can_event_t).is_error = false ∧
    (⟨5, 0, 0, 2, true, false⟩ : ldx_can_event_t).is_rx = true ∧
    (ldx_can_dispatch_evt [⟨some 1⟩] [⟨2, some 9⟩, ⟨3, some 8⟩]
        ⟨5, 0, 0, 2, true, false⟩).count (CbCall.rx 9 2 5)
      = (List.filter (fun cb => cb.handler == some 9 && cb.rx_skt == 2)
          [can_cb_t.mk 2 (some 9), ⟨3, some 8⟩]).length :=
  ⟨rfl, rfl,
    (dispatch_rx_event_socket_match [⟨some 1⟩] [⟨2, some 9⟩, ⟨3, some 8⟩]
      ⟨5, 0, 0, 2, true, false⟩ rfl rfl).2 9⟩

/-- C2 (code bug evidence): a `write` result of -1 with an errno other than
ENOBUFS/EAGAIN (here EPERM) falls through every classification branch of
`ldx_can_tx_frame` and the function returns `EXIT_SUCCESS`, not the fatal
write-error code the claim (and the function's own unreachable log branch)
requires. -/
theorem tx_frame_other_errno_returns_success :
    EPERM ≠ ENOBUFS ∧ EPERM ≠ EAGAIN ∧
    ldx_can_tx_frame false false (-1) EPERM = EXIT_SUCCESS ∧
    ldx_can_tx_frame false false (-1) EPERM ≠ -(CAN_ERROR_TX_SKT_WR : Int) := by
  decide

/-- C7 (code bug evidence): when `select` fails (-1) with an errno other than
EINTR (here EBADF), `ldx_can_poll_one` executes `return errno;` and so hands
the caller the raw positive errno, not a negated (negative) error code. -/
theorem poll_one_select_error_positive :
    EBADF ≠ EINTR ∧
    ldx_can_poll_one (-1) EBADF 0 = (EBADF : Int) ∧
    0 < ldx_can_poll_one (-1) EBADF 0 := by
  decide

/-- C9: whenever `select` reports at least one ready descriptor,
`ldx_can_poll` returns 0 to the caller, whatever the per-socket drain results
were (including a fatal `-CAN_ERROR_NETWORK_DOWN`): the branch ends with an
unconditional `ret = 0;`. -/
theorem poll_ready_returns_zero (selectRet : Int) (errno : Nat)
    (drainResults : List Int) (h : 0 < selectRet) :
    ldx_can_poll selectRet errno drainResults = 0 := by
  have h1 : ¬ selectRet < 0 := not_lt.mpr (le_of_lt h)
  simp [ldx_can_poll, h1, h]

/-- Witness for C9: one ready descriptor whose drain fails with the fatal
network-down condition still yields a 0 return. -/
theorem poll_ready_returns_zero_witness :
    (0 : Int) < 1 ∧ ldx_can_poll 1 0 [-(CAN_ERROR_NETWORK_DOWN : Int)] = 0 :=
  ⟨by decide, poll_ready_returns_zero 1 0 [-(CAN_ERROR_NETWORK_DOWN : Int)] (by decide)⟩

theorem mem_le_fds_max {a : Nat} {l : List Nat} (h : a ∈ l) : a ≤ fds_max l := by
  induction l with
  | nil => cases h
  | cons b tl ih =>
    rcases List.mem_cons.mp h with hb | htl
    · subst hb
      simp only [fds_max, List.foldr_cons]
      exact Nat.le_max_left _ _
    · simp only [fds_max, List.foldr_cons]
      exact le_trans (ih htl) (Nat.le_max_right _ _)

/-- C3 counterexample: initialize the wait-set with transmit socket 3, open
receive socket 5 (maxfd becomes 5), then close receive socket 5: the wait-set
holds only descriptor 3 but `maxfd` stays 5, so the maximum-descriptor value
no longer equals the largest descriptor in the wait-set. -/
theorem close_rx_socket_maxfd_cex :
    ¬ maxfd_exact (ldx_can_close_rx_socket_fds
        (ldx_can_init_rx_socket_fds (ldx_can_init_fds 3) 5) 5) := by
  unfold maxfd_exact
  decide

/-- C3 (amended): interface init establishes `maxfd` as the exact maximum of
the wait-set, opening a receive socket preserves exactness, but closing a
receive socket (also reached from unregistering a receive handler) leaves
`maxfd` untouched, so after a close `maxfd` is only an upper bound of the
wait-set and may exceed its largest descriptor. -/
theorem maxfd_tracks_wait_set (tx rx1 rx2 : Nat) (s t : can_fds_state)
    (hs : maxfd_exact s) (ht : maxfd_ubound t) :
    maxfd_exact (ldx_can_init_fds tx) ∧
    maxfd_exact (ldx_can_init_rx_socket_fds s rx1) ∧
    maxfd_ubound (ldx_can_close_rx_socket_fds t rx2) := by
  refine ⟨?_, ?_, ?_⟩
  · unfold maxfd_exact ldx_can_init_fds FD_SET fds_max
    simp
  · unfold maxfd_exact at hs ⊢
    unfold ldx_can_init_rx_socket_fds FD_SET
    by_cases hmem : rx1 ∈ s.can_fds
    · have hle : rx1 ≤ s.maxfd := hs ▸ mem_le_fds_max hmem
      simp only [if_pos hmem]
      rw [if_neg (Nat.not_lt.mpr hle)]
      exact hs
    · simp only [if_neg hmem]
      have hc : fds_max (rx1 :: s.can_fds) = max rx1 (fds_max s.can_fds) := by
        simp [fds_max]
      rw [hc, ← hs]
      rcases Nat.lt_or_ge s.maxfd rx1 with hlt | hge
      · rw [if_pos hlt, Nat.max_eq_left (Nat.le_of_lt hlt)]
      · rw [if_neg (Nat.not_lt.mpr hge), Nat.max_eq_right hge]
  · unfold maxfd_ubound at ht ⊢
    unfold ldx_can_close_rx_socket_fds FD_CLR
    intro fd hfd
    exact ht fd (List.mem_of_mem_filter hfd)

/-- Witness for the amended C3 on concrete states. -/
theorem maxfd_tracks_wait_set_witness :
    maxfd_exact (ldx_can_init_fds 3) ∧
    maxfd_ubound (ldx_can_init_rx_socket_fds (ldx_can_init_fds 3) 5) ∧
    (maxfd_exact (ldx_can_init_fds 2) ∧
     maxfd_exact (ldx_can_init_rx_socket_fds (ldx_can_init_fds 3) 7) ∧
     maxfd_ubound (ldx_can_close_rx_socket_fds
        (ldx_can_init_rx_socket_fds (ldx_can_init_fds 3) 5) 5)) := by
  have hs0 : maxfd_exact (ldx_can_init_fds 3) := by
    unfold maxfd_exact
    decide
  have ht0 : maxfd_ubound (ldx_can_init_rx_socket_fds (ldx_can_init_fds 3) 5) := by
    unfold maxfd_ubound
    decide
  exact ⟨hs0, ht0, maxfd_tracks_wait_set 2 7 5 _ _ hs0 ht0⟩

/-- C8 (code bug evidence): with CAN FD requested and everything up to the
MTU check succeeding, an interface whose link MTU is not `CANFD_MTU` makes
`ldx_can_init` return `CAN_ERROR_NOT_CANFD` as a POSITIVE value (the one
error path that does not negate its code), while the transmit socket is
indeed closed before returning. -/
theorem init_not_canfd_positive :
    can_init_env_no_fd_mtu.ifr_mtu ≠ CANFD_MTU ∧
    (ldx_can_init true 0 0 true can_init_env_no_fd_mtu).ret
        = (CAN_ERROR_NOT_CANFD : Int) ∧
    0 < (ldx_can_init true 0 0 true can_init_env_no_fd_mtu).ret ∧
    (ldx_can_init true 0 0 true can_init_env_no_fd_mtu).tx_skt_open = false := by
  decide

/-- C10: `ldx_can_strerror` is total and never reads the table out of bounds:
any non-NULL result requires `0 < error < CAN_ERROR_MAX`, and such an index is
always within the `CAN_ERROR_MAX + 1`-entry table; the success code 0, the
bound itself, and negative codes all yield NULL, and an in-range code without
a table entry (such as `CAN_ERROR_NETWORK_DOWN`) also yields NULL rather than
faulting. -/
theorem strerror_total_in_bounds (error : Int) :
    (ldx_can_strerror error = none ∨
      (0 < error ∧ error < (CAN_ERROR_MAX : Int) ∧
       error.toNat < __can_error_str.length ∧
       ldx_can_strerror error = __can_error_str.getD error.toNat none)) ∧
    ldx_can_strerror 0 = none ∧
    ldx_can_strerror (CAN_ERROR_MAX : Int) = none ∧
    ldx_can_strerror (-(CAN_ERROR_TX_SKT_WR : Int)) = none ∧
    ldx_can_strerror (CAN_ERROR_NETWORK_DOWN : Int) = none := by
  constructor
  · by_cases hgd : 0 < error ∧ error < (CAN_ERROR_MAX : Int)
    · right
      refine ⟨hgd.1, hgd.2, ?_, ?_⟩
      · have hlen : __can_error_str.length = CAN_ERROR_MAX + 1 := by
          simp [__can_error_str]
        have hlt : error < 50 := by
          have := hgd.2
          simpa [CAN_ERROR_MAX] using this
        rw [hlen]
        unfold CAN_ERROR_MAX
        omega
      · simp [ldx_can_strerror, hgd]
    · left
      simp only [ldx_can_strerror, if_neg hgd]
  · refine ⟨?_, ?_, ?_, ?_⟩ <;> decide
